import Mathlib

/-!
Verification development for the session-bootstrap control path of
`asset_stream_manager/local_assets_stream_manager_service_impl.cc`.

The C++ source is shallowly embedded: strings are modelled through their
character lists, out-parameters become explicit returned values, and the
external collaborators (the spawned `ggp` process and the session registry)
are abstracted into behaviour records whose fields are exactly the
observations the source makes of them (start/run success, exit code,
accumulated stdout; returned status and handle).  Telemetry and registry
calls are recorded in an explicit action trace so that routing and
short-circuit properties can be stated.
-/

namespace CdcFt

/-- Character class of C `isspace` in the default locale:
space, tab, newline, vertical tab, form feed, carriage return. -/
def cIsspace (c : Char) : Bool :=
  c = ' ' || c = '\t' || c = '\n' || c = '\x0b' || c = '\x0c' || c = '\r'

/-- Splits a character list at every occurrence of the separator `c`,
dropping the separators.  Models `absl::StrSplit(s, c)`: splitting the
empty string yields one empty piece, and adjacent separators yield empty
pieces. -/
def splitCharList (c : Char) : List Char → List (List Char)
  | [] => [[]]
  | x :: xs =>
    match splitCharList c xs with
    | piece :: rest => if x = c then [] :: piece :: rest else (x :: piece) :: rest
    | [] => if x = c then [[], []] else [[x]]

/-- String-level wrapper for `splitCharList`; models `absl::StrSplit`. -/
def strSplit (s : String) (c : Char) : List String :=
  (splitCharList c s.data).map String.mk

/-- Drops leading and trailing `isspace` characters.  Models the
start/end index walk in `ParseValue` (the two `while` loops advancing
`start_pos` and retreating `end_pos`). -/
def trimChars (l : List Char) : List Char :=
  ((l.dropWhile cIsspace).reverse.dropWhile cIsspace).reverse

/-- The lines produced by repeated `std::getline(stream, line)` over a
string stream: split on the newline character, except that a trailing
newline does not produce a final empty line (and the empty string yields
no lines at all). -/
def getlineAll (data : String) : List String :=
  let ls := strSplit data '\n'
  if ls.getLast? = some "" then ls.dropLast else ls

/-- Whether a line starts with `key ++ ":"`; models
`line.find(key + ":") == 0` in `ParseValue`. -/
def matchesKey (key line : String) : Bool :=
  List.isPrefixOf (key.data ++ [':']) line.data

/-- The value extracted from a matching line: the substring after the
colon (`start_pos = key.size() + 1`), with surrounding whitespace
trimmed. -/
def extractValue (key line : String) : String :=
  String.mk (trimChars (line.data.drop (key.length + 1)))

/-- The `while (std::getline(...))` loop body of `ParseValue`: return the
trimmed value of the first line starting with `key ++ ":"`. -/
def ParseValueLoop (key : String) : List String → Option String
  | [] => none
  | line :: rest =>
    if matchesKey key line then some (extractValue key line)
    else ParseValueLoop key rest

/-- `ParseValue(data, key, value)` of the source, with the boolean result
and the out-parameter fused into an `Option` (the out-parameter is written
exactly on the `true` paths). -/
def ParseValue (data key : String) : Option String :=
  ParseValueLoop key (getlineAll data)

/-- Digit-accumulation loop of C `atoi`: consume leading decimal digits,
stop at the first non-digit. -/
def atoiLoop : List Char → Nat → Nat
  | [], acc => acc
  | c :: cs, acc => if c.isDigit then atoiLoop cs (acc * 10 + (c.toNat - 48)) else acc

/-- C `atoi`: skip leading whitespace, read an optional sign, then the
longest prefix of decimal digits; an input with no digits at that point
yields 0.  (Overflow, undefined for the real `atoi`, is not exercised by
any theorem below.) -/
def atoi (s : String) : Int :=
  match s.data.dropWhile cIsspace with
  | '-' :: cs => -(atoiLoop cs 0 : Int)
  | '+' :: cs => (atoiLoop cs 0 : Int)
  | cs => (atoiLoop cs 0 : Int)

/-- Value of a list of decimal digits, most significant first, as folded
up by the `atoi` digit loop. -/
def digitsToNat (ds : List Char) : Nat :=
  ds.foldl (fun a c => a * 10 + (c.toNat - 48)) 0

/-- `UINT_MAX` on the 32-bit-`unsigned` platforms this code targets. -/
def UINT_MAX : Nat := 4294967295

/-- C++ conversion of a (mathematical) `int` value to `unsigned int`:
reduction modulo 2^32, as performed by the usual arithmetic conversions
in `int_port > UINT_MAX`. -/
def cppIntToUInt32 (i : Int) : Nat := (i % (2 : Int) ^ 32).toNat

/-- C++ `static_cast<uint16_t>` applied to an `int` value: reduction
modulo 2^16. -/
def cppIntToUInt16 (i : Int) : Nat := (i % (2 : Int) ^ 16).toNat

/-- Result of `ParseInstanceName`: the boolean return value together with
the final values of the three out-parameters. -/
structure ParseOut where
  ok : Bool
  instance_id : String
  project_id : String
  organization_id : String
deriving DecidableEq, Repr

/-- `ParseInstanceName(instance_name, &instance_id, &project_id,
&organization_id)`.  The three extra arguments are the values held by the
out-parameters on entry; the source writes them only after every check has
passed, so they are returned unchanged on every failure path. -/
def ParseInstanceName (instance_name instance_id project_id organization_id : String) :
    ParseOut :=
  let parts := strSplit instance_name '/'
  if parts.length ≠ 10 then
    ⟨false, instance_id, project_id, organization_id⟩
  else if parts.getD 0 "" ≠ "organizations" ∨ parts.getD 1 "" = "" then
    ⟨false, instance_id, project_id, organization_id⟩
  else if parts.getD 2 "" ≠ "projects" ∨ parts.getD 3 "" = "" then
    ⟨false, instance_id, project_id, organization_id⟩
  else if parts.getD 4 "" ≠ "pools" ∨ parts.getD 5 "" = "" then
    ⟨false, instance_id, project_id, organization_id⟩
  else if parts.getD 6 "" ≠ "gamelets" ∨ parts.getD 7 "" = "" ∨ parts.getD 8 "" = "" ∨
      parts.getD 9 "" = "" then
    ⟨false, instance_id, project_id, organization_id⟩
  else
    ⟨true, parts.getD 7 "" ++ "/" ++ parts.getD 8 "" ++ "/" ++ parts.getD 9 "",
      parts.getD 3 "", parts.getD 1 ""⟩

/-- The subset of `absl::Status` this translation unit produces: `OkStatus`,
`InvalidArgumentError`, and the generic errors built by `MakeStatus` /
`WrapStatus` (carried here with their message text). -/
inductive AbslStatus where
  | ok
  | invalidArgument (msg : String)
  | unknown (msg : String)
deriving DecidableEq, Repr

/-- Everything `InitSsh` observes of the external `ggp ssh init` process:
whether `Start()` succeeds, whether `RunUntilExit()` succeeds, the exit
code, and the stdout bytes accumulated by the `stdout_handler` callback by
the time the process has exited.  Command-line construction and spawning
mechanics live behind this abstraction. -/
structure ProcBehavior where
  startOk : Bool
  runOk : Bool
  exitCode : Nat
  output : String
deriving DecidableEq, Repr

/-- Result of `InitSsh`: the returned status together with the final
values of the two out-parameters `*instance_ip` and `*instance_port`
(both cleared on entry: `instance_ip->clear(); *instance_port = 0;`). -/
structure InitSshOut where
  status : AbslStatus
  instance_ip : String
  instance_port : Nat
deriving DecidableEq, Repr

/-- `InitSsh(instance_id, project_id, organization_id, &instance_ip,
&instance_port)`.  The id arguments only feed the command line of the
external process, which is abstracted into `pf`; they are kept for
signature fidelity.  Error-message fidelity: `WrapStatus` prefixes are
kept, the wrapped inner status text is elided. -/
def InitSsh (pf : ProcBehavior) (instance_id project_id organization_id : String) :
    InitSshOut :=
  let instance_ip := ""
  let instance_port := 0
  if pf.startOk = false then
    ⟨.unknown "Failed to start ggp process", instance_ip, instance_port⟩
  else if pf.runOk = false then
    ⟨.unknown "Failed to run ggp process", instance_ip, instance_port⟩
  else if pf.exitCode ≠ 0 then
    ⟨.unknown ("ggp process exited with code " ++ Nat.repr pf.exitCode),
      instance_ip, instance_port⟩
  else
    match ParseValue pf.output "Host" with
    | none =>
      ⟨.unknown ("Failed to parse host from ggp ssh init response\n" ++ pf.output),
        instance_ip, instance_port⟩
    | some host =>
      let instance_ip := host
      let portParse := ParseValue pf.output "Port"
      let port_string := portParse.getD ""
      let result := portParse.isSome
      let int_port : Int := atoi port_string
      if result = false ∨ int_port = 0 ∨ int_port ≤ 0 ∨
          cppIntToUInt32 int_port > UINT_MAX then
        ⟨.unknown ("Failed to parse ssh port from ggp ssh init response\n" ++ pf.output),
          instance_ip, instance_port⟩
      else
        ⟨.ok, instance_ip, cppIntToUInt16 int_port⟩

/-- What `StartSession` observes of a `MultiSession*` handle:
`HasSessionForInstance` and `GetSessionCount`. -/
structure MultiSession where
  hasSession : String → Bool
  sessionCount : Nat

/-- What `StartSession` observes of `SessionManager::StartSession`: the
returned status, the handle written to `*ms` (`none` models `nullptr`),
and the session-start status enum written into the event. -/
structure SessionManagerBehavior where
  status : AbslStatus
  ms : Option MultiSession
  sessionStartStatus : Nat

/-- Observable actions of one `StartSession` request, in program order:
the resolver invocation (external process), the registry call, the status
stamp into the telemetry event, the three event-recording sinks, and the
status returned to the RPC caller. -/
inductive TraceAction where
  | initSshCall
  | sessionManagerStart
  | stampStatus (code : AbslStatus)
  | recordSessionEvent (instance_id : String)
  | recordMultiSessionEvent
  | recordEvent
  | returnStatus (code : AbslStatus)
deriving DecidableEq, Repr

/-- Whether an action is one of the three telemetry-recording calls
(`RecordSessionEvent`, `RecordMultiSessionEvent`, `RecordEvent`). -/
def isRecordAction : TraceAction → Bool
  | .recordSessionEvent _ => true
  | .recordMultiSessionEvent => true
  | .recordEvent => true
  | _ => false

/-- Whether an action is the status stamp into the telemetry event. -/
def isStampAction : TraceAction → Bool
  | .stampStatus _ => true
  | _ => false

/-- Whether an action is the return of a status to the caller. -/
def isReturnAction : TraceAction → Bool
  | .returnStatus _ => true
  | _ => false

/-- The tail of `StartSession` (source lines 142-163): stamp the final
status into the event, route the event to exactly one sink based on the
handle and the instance id, then return the status.  `tr` is the trace
accumulated so far. -/
def routeAndFinish (status : AbslStatus) (ms : Option MultiSession)
    (instance_id : String) (tr : List TraceAction) : AbslStatus × List TraceAction :=
  let tr := tr ++ [.stampStatus status]
  let tr :=
    match ms with
    | some m =>
      if instance_id ≠ "" ∧ m.hasSession instance_id = true then
        tr ++ [.recordSessionEvent instance_id]
      else
        tr ++ [.recordMultiSessionEvent]
    | none => tr ++ [.recordEvent]
  (status, tr ++ [.returnStatus status])

/-- `LocalAssetsStreamManagerServiceImpl::StartSession`, with the external
process and the session registry abstracted into behaviour records.  The
result is the final status together with the trace of observable actions.
The locals `instance_id`, `project_id`, `organization_id` start out empty
and are written only by a successful parse; `ms` starts out null and is
written only by the registry call, which runs only after a successful
resolve. -/
def StartSession (gamelet_name workstation_directory : String)
    (pf : ProcBehavior) (sm : SessionManagerBehavior) : AbslStatus × List TraceAction :=
  let pr := ParseInstanceName gamelet_name "" "" ""
  if pr.ok = false then
    routeAndFinish
      (.invalidArgument ("Failed to parse instance name " ++ gamelet_name))
      none "" []
  else
    let r := InitSsh pf pr.instance_id pr.project_id pr.organization_id
    if r.status = .ok then
      routeAndFinish sm.status sm.ms pr.instance_id
        [.initSshCall, .sessionManagerStart]
    else
      routeAndFinish r.status none pr.instance_id [.initSshCall]

/-! ### Helper lemmas -/

/-- The `while` loop of `ParseValue` returns the trimmed value of the first
line matching `key`, i.e. it computes `find?` followed by value
extraction. -/
lemma ParseValueLoop_eq_find (key : String) (ls : List String) :
    ParseValueLoop key ls = (ls.find? (matchesKey key)).map (extractValue key) := by
  induction ls with
  | nil => rfl
  | cons l rest ih =>
    by_cases h : matchesKey key l
    · simp [ParseValueLoop, h, List.find?_cons_of_pos]
    · simp [ParseValueLoop, h, List.find?_cons_of_neg, ih]

/-- A successfully parsed instance name yields a non-empty instance id
(it is the slash-join of three segments). -/
lemma ParseInstanceName_ok_ne_empty (name i p o : String)
    (h : (ParseInstanceName name i p o).ok = true) :
    (ParseInstanceName name i p o).instance_id ≠ "" := by
  simp only [ParseInstanceName] at h ⊢
  split_ifs at h ⊢
  all_goals simp_all
  intro hcontra
  have hlen := congrArg String.length hcontra
  simp [String.length_append] at hlen
  exact absurd hlen.1.2 (by decide)

/-- The digit loop returns its accumulator unchanged when the list does
not start with a digit. -/
lemma atoiLoop_eq_of_head (r : List Char) (acc : Nat)
    (hr : ∀ c0, r.head? = some c0 → c0.isDigit = false) : atoiLoop r acc = acc := by
  cases r with
  | nil => rfl
  | cons c cs => simp [atoiLoop, hr c rfl]

/-- The digit loop returns its accumulator unchanged on a list holding no
digit at all. -/
lemma atoiLoop_eq_of_no_digit (cs : List Char) (acc : Nat)
    (h : ∀ c ∈ cs, c.isDigit = false) : atoiLoop cs acc = acc := by
  cases cs with
  | nil => rfl
  | cons c cs => simp [atoiLoop, h c (by simp)]

/-- `atoi` yields 0 on a string containing no decimal digit at all. -/
lemma atoi_eq_zero_of_no_digit (s : String) (h : ∀ c ∈ s.data, c.isDigit = false) :
    atoi s = 0 := by
  have hsub : ∀ c ∈ s.data.dropWhile cIsspace, c.isDigit = false :=
    fun c hc => h c ((List.dropWhile_suffix cIsspace).subset hc)
  unfold atoi
  split
  next heq =>
    rw [atoiLoop_eq_of_no_digit _ 0 fun c hc => hsub c (heq ▸ List.mem_cons_of_mem _ hc)]
    simp
  next heq =>
    rw [atoiLoop_eq_of_no_digit _ 0 fun c hc => hsub c (heq ▸ List.mem_cons_of_mem _ hc)]
    simp
  next =>
    exact_mod_cast atoiLoop_eq_of_no_digit _ 0 hsub

/-- The digit loop consumes a leading all-digit block and stops at the
first non-digit that follows. -/
lemma atoiLoop_append (ds r : List Char) (acc : Nat)
    (hds : ∀ c ∈ ds, c.isDigit = true)
    (hr : ∀ c0, r.head? = some c0 → c0.isDigit = false) :
    atoiLoop (ds ++ r) acc = ds.foldl (fun a c => a * 10 + (c.toNat - 48)) acc := by
  induction ds generalizing acc with
  | nil =>
    simp only [List.nil_append, List.foldl_nil]
    exact atoiLoop_eq_of_head r acc hr
  | cons d ds ih =>
    have hd : d.isDigit = true := hds d (by simp)
    rw [List.cons_append]
    simp only [atoiLoop, hd, ite_true, List.foldl_cons]
    exact ih _ (fun c hc => hds c (List.mem_cons_of_mem _ hc))

/-- A decimal digit is not a whitespace character. -/
lemma not_cIsspace_of_isDigit (c : Char) (h : c.isDigit = true) : cIsspace c = false := by
  by_contra hc
  simp only [Bool.not_eq_false, cIsspace, Bool.or_eq_true, decide_eq_true_eq] at hc
  rcases hc with (((((h1 | h1) | h1) | h1) | h1) | h1) <;> subst h1 <;>
    exact absurd h (by decide)

/-- `atoi` on a string made of a non-empty digit block followed by a
non-digit remainder returns the value of the digit block. -/
lemma atoi_digit_prefix (pv : String) (ds r : List Char)
    (hsplit : pv.data = ds ++ r) (hne : ds ≠ [])
    (hds : ∀ c ∈ ds, c.isDigit = true)
    (hr : ∀ c0, r.head? = some c0 → c0.isDigit = false) :
    atoi pv = (digitsToNat ds : Int) := by
  obtain ⟨d, ds', rfl⟩ : ∃ d ds', ds = d :: ds' := by
    cases ds with
    | nil => exact absurd rfl hne
    | cons d ds' => exact ⟨d, ds', rfl⟩
  have hd : d.isDigit = true := hds d (by simp)
  have hdrop : pv.data.dropWhile cIsspace = d :: (ds' ++ r) := by
    rw [hsplit, List.cons_append, List.dropWhile_cons,
      not_cIsspace_of_isDigit d hd]
    simp
  unfold atoi
  rw [hdrop]
  split
  next heq =>
    rw [List.cons.injEq] at heq
    exact absurd hd (heq.1 ▸ by decide)
  next heq =>
    rw [List.cons.injEq] at heq
    exact absurd hd (heq.1 ▸ by decide)
  next =>
    have := atoiLoop_append (d :: ds') r 0 hds hr
    rw [List.cons_append] at this
    exact_mod_cast this

/-! ### Claim theorems -/

/-- C4: `ParseInstanceName` succeeds exactly when splitting the input on
slashes yields precisely 10 segments with the literals `organizations`,
`projects`, `pools`, `gamelets` at positions 0, 2, 4, 6 and non-empty
segments at positions 1, 3, 5, 7, 8, 9; on success the organization id is
segment 1, the project id segment 3, and the instance id the slash-join of
segments 7, 8 and 9. -/
theorem ParseInstanceName_characterization (name i p o : String) :
    ((ParseInstanceName name i p o).ok = true ↔
      ((strSplit name '/').length = 10 ∧
        (strSplit name '/').getD 0 "" = "organizations" ∧
        (strSplit name '/').getD 2 "" = "projects" ∧
        (strSplit name '/').getD 4 "" = "pools" ∧
        (strSplit name '/').getD 6 "" = "gamelets" ∧
        (strSplit name '/').getD 1 "" ≠ "" ∧
        (strSplit name '/').getD 3 "" ≠ "" ∧
        (strSplit name '/').getD 5 "" ≠ "" ∧
        (strSplit name '/').getD 7 "" ≠ "" ∧
        (strSplit name '/').getD 8 "" ≠ "" ∧
        (strSplit name '/').getD 9 "" ≠ ""))
    ∧ ((ParseInstanceName name i p o).ok = true →
        (ParseInstanceName name i p o).organization_id = (strSplit name '/').getD 1 "" ∧
        (ParseInstanceName name i p o).project_id = (strSplit name '/').getD 3 "" ∧
        (ParseInstanceName name i p o).instance_id =
          (strSplit name '/').getD 7 "" ++ "/" ++ (strSplit name '/').getD 8 "" ++ "/" ++
            (strSplit name '/').getD 9 "") := by
  simp only [ParseInstanceName]
  split_ifs <;> simp_all <;> tauto

/-- C4 witness: the well-formed example name from the spec parses into its
three scope components. -/
theorem ParseInstanceName_characterization_witness :
    (ParseInstanceName
        "organizations/o1/projects/p1/pools/pool1/gamelets/edge/e-1/abc123"
        "" "" "").organization_id
      = (strSplit "organizations/o1/projects/p1/pools/pool1/gamelets/edge/e-1/abc123" '/').getD 1 "" :=
  ((ParseInstanceName_characterization
      "organizations/o1/projects/p1/pools/pool1/gamelets/edge/e-1/abc123"
      "" "" "").2 (by decide)).1

/-- C6: parsing is atomic — on every input on which `ParseInstanceName`
fails, the three out-parameters keep the values they held on entry. -/
theorem ParseInstanceName_atomic (name i p o : String)
    (h : (ParseInstanceName name i p o).ok = false) :
    (ParseInstanceName name i p o).instance_id = i ∧
    (ParseInstanceName name i p o).project_id = p ∧
    (ParseInstanceName name i p o).organization_id = o := by
  simp only [ParseInstanceName] at h ⊢
  split_ifs at h ⊢ <;> simp_all

/-- C6 witness: the 9-segment name from the spec fails and leaves the
out-parameters untouched. -/
theorem ParseInstanceName_atomic_witness :
    (ParseInstanceName "organizations/o1/projects/p1/pools/pool1/gamelets/edge/e-1"
        "X" "Y" "Z").instance_id = "X" ∧
    (ParseInstanceName "organizations/o1/projects/p1/pools/pool1/gamelets/edge/e-1"
        "X" "Y" "Z").project_id = "Y" ∧
    (ParseInstanceName "organizations/o1/projects/p1/pools/pool1/gamelets/edge/e-1"
        "X" "Y" "Z").organization_id = "Z" :=
  ParseInstanceName_atomic "organizations/o1/projects/p1/pools/pool1/gamelets/edge/e-1"
    "X" "Y" "Z" (by decide)

/-- C5: `ParseValue` returns the trimmed value after the colon of the
first line starting with `key ++ ":"` (later matches are ignored, an
empty-after-trim value still counts as found), and returns nothing exactly
when no line starts with `key ++ ":"`. -/
theorem ParseValue_first_match (data key : String) :
    ParseValue data key
      = ((getlineAll data).find? (matchesKey key)).map (extractValue key)
    ∧ (ParseValue data key = none ↔
        ∀ line ∈ getlineAll data, matchesKey key line = false) := by
  refine ⟨ParseValueLoop_eq_find key (getlineAll data), ?_⟩
  rw [ParseValue, ParseValueLoop_eq_find]
  simp [List.find?_eq_none]

/-- C5 witness: first-match-wins on the two-`Port`-line example from the
spec, and absence is reported when no line matches. -/
theorem ParseValue_first_match_witness :
    ParseValue "Port: 1\nPort: 2" "Port"
      = ((getlineAll "Port: 1\nPort: 2").find? (matchesKey "Port")).map (extractValue "Port") ∧
    (ParseValue "xHost: 3" "Host" = none ↔
      ∀ line ∈ getlineAll "xHost: 3", matchesKey "Host" line = false) :=
  ⟨(ParseValue_first_match "Port: 1\nPort: 2" "Port").1,
    (ParseValue_first_match "xHost: 3" "Host").2⟩

/-- C7: whenever the external process starts and runs to completion but
exits non-zero, `InitSsh` fails with an error embedding that numeric exit
code, whatever output was captured — and both out-parameters stay
cleared. -/
theorem InitSsh_nonzero_exit_embeds_code (pf : ProcBehavior) (i p o : String)
    (hs : pf.startOk = true) (hr : pf.runOk = true) (he : pf.exitCode ≠ 0) :
    InitSsh pf i p o
      = ⟨.unknown ("ggp process exited with code " ++ Nat.repr pf.exitCode), "", 0⟩ := by
  unfold InitSsh
  simp [hs, hr, he]

/-- C7 witness: exit code 5 with an output that even contains valid
`Host` and `Port` lines still fails, with 5 embedded in the message. -/
theorem InitSsh_nonzero_exit_embeds_code_witness :
    InitSsh ⟨true, true, 5, "Host: 1.2.3.4\nPort: 22\n"⟩ "i" "p" "o"
      = ⟨.unknown ("ggp process exited with code " ++ Nat.repr 5), "", 0⟩ :=
  InitSsh_nonzero_exit_embeds_code ⟨true, true, 5, "Host: 1.2.3.4\nPort: 22\n"⟩
    "i" "p" "o" rfl rfl (by decide)

/-- C8: when the `Port` line is present but its trimmed value holds no
digit at all, the numeric parse yields zero and that zero is rejected:
`InitSsh` fails with the port-parse error (and the port out-parameter
stays 0) instead of succeeding with port 0. -/
theorem InitSsh_nonnumeric_port_rejected (pf : ProcBehavior) (i p o : String)
    (hs : pf.startOk = true) (hr : pf.runOk = true) (he : pf.exitCode = 0)
    (host pv : String)
    (hhost : ParseValue pf.output "Host" = some host)
    (hport : ParseValue pf.output "Port" = some pv)
    (hnd : ∀ c ∈ pv.data, c.isDigit = false) :
    atoi pv = 0 ∧
    InitSsh pf i p o
      = ⟨.unknown ("Failed to parse ssh port from ggp ssh init response\n" ++ pf.output),
          host, 0⟩ := by
  have hz : atoi pv = 0 := atoi_eq_zero_of_no_digit pv hnd
  refine ⟨hz, ?_⟩
  unfold InitSsh
  simp [hs, hr, he, hhost, hport, hz]

/-- C8 witness: output whose `Port` value is `abc` makes the resolver fail
with the port-parse error while the host was already extracted. -/
theorem InitSsh_nonnumeric_port_rejected_witness :
    atoi "abc" = 0 ∧
    InitSsh ⟨true, true, 0, "Host: 1.2.3.4\nPort: abc\n"⟩ "i" "p" "o"
      = ⟨.unknown ("Failed to parse ssh port from ggp ssh init response\n" ++
          "Host: 1.2.3.4\nPort: abc\n"), "1.2.3.4", 0⟩ :=
  InitSsh_nonnumeric_port_rejected ⟨true, true, 0, "Host: 1.2.3.4\nPort: abc\n"⟩
    "i" "p" "o" rfl rfl rfl "1.2.3.4" "abc" (by decide) (by decide) (by decide)

/-- `InitSsh` either succeeds or leaves the port out-parameter at its
cleared value 0 (the port is the last thing written, after every check). -/
lemma InitSsh_ok_or_port_zero (pf : ProcBehavior) (i p o : String) :
    (InitSsh pf i p o).status = .ok ∨ (InitSsh pf i p o).instance_port = 0 := by
  unfold InitSsh
  split_ifs
  · right; rfl
  · right; rfl
  · right; rfl
  · split
    · right; rfl
    · dsimp only
      split_ifs
      · right; rfl
      · left; rfl

/-- Once the process has exited cleanly and `Host` extraction succeeds,
the host out-parameter holds the extracted host — whether or not the
later port step fails. -/
lemma InitSsh_ip_eq_host (pf : ProcBehavior) (i p o host : String)
    (hs : pf.startOk = true) (hr : pf.runOk = true) (he : pf.exitCode = 0)
    (hhost : ParseValue pf.output "Host" = some host) :
    (InitSsh pf i p o).instance_ip = host := by
  unfold InitSsh
  rw [if_neg (by simp [hs]), if_neg (by simp [hr]), if_neg (by simp [he]), hhost]
  dsimp only
  split_ifs <;> rfl

/-- C9: the two out-parameters of `InitSsh` are not updated atomically.
The port out-parameter is written only after every check passes, so it is
0 on every failure path; the host out-parameter is written as soon as
`Host` extraction succeeds, so a failure at the later port step leaves the
extracted host in it rather than the cleared value. -/
theorem InitSsh_out_param_frame (pf : ProcBehavior) (i p o : String) :
    ((InitSsh pf i p o).status ≠ .ok → (InitSsh pf i p o).instance_port = 0)
    ∧ (∀ host, ParseValue pf.output "Host" = some host →
        pf.startOk = true → pf.runOk = true → pf.exitCode = 0 →
        (InitSsh pf i p o).status ≠ .ok → (InitSsh pf i p o).instance_ip = host) := by
  constructor
  · intro hne
    rcases InitSsh_ok_or_port_zero pf i p o with h | h
    · exact absurd h hne
    · exact h
  · intro host hhost hs hr he _
    exact InitSsh_ip_eq_host pf i p o host hs hr he hhost

/-- C9 witness: with `Port: 0` the resolver fails at the port step, the
port out-parameter is still 0 and the host out-parameter already holds the
extracted host. -/
theorem InitSsh_out_param_frame_witness :
    (InitSsh ⟨true, true, 0, "Host: 1.2.3.4\nPort: 0\n"⟩ "i" "p" "o").instance_port = 0 ∧
    (InitSsh ⟨true, true, 0, "Host: 1.2.3.4\nPort: 0\n"⟩ "i" "p" "o").instance_ip
      = "1.2.3.4" :=
  ⟨(InitSsh_out_param_frame ⟨true, true, 0, "Host: 1.2.3.4\nPort: 0\n"⟩ "i" "p" "o").1
      (by decide),
    (InitSsh_out_param_frame ⟨true, true, 0, "Host: 1.2.3.4\nPort: 0\n"⟩ "i" "p" "o").2
      "1.2.3.4" (by decide) rfl rfl rfl (by decide)⟩

/-- Casting helper: converting a small natural number through the C++
`int`-to-`unsigned int` conversion returns it unchanged. -/
lemma cppIntToUInt32_small (n : Nat) (h : n < 2 ^ 32) : cppIntToUInt32 (n : Int) = n := by
  unfold cppIntToUInt32
  rw [Int.emod_eq_of_lt (by positivity) (by exact_mod_cast h)]
  simp

/-- Casting helper: `static_cast<uint16_t>` of a value below 2^16 returns
it unchanged. -/
lemma cppIntToUInt16_small (n : Nat) (h : n < 2 ^ 16) : cppIntToUInt16 (n : Int) = n := by
  unfold cppIntToUInt16
  rw [Int.emod_eq_of_lt (by positivity) (by exact_mod_cast h)]
  simp

/-- C10: a `Port` value whose trimmed text is a non-empty digit block
followed by trailing non-numeric characters is not rejected: the numeric
parse takes the leading digit prefix and, whenever that prefix lies in the
accepted range, `InitSsh` succeeds with the prefix as the port. -/
theorem InitSsh_port_digit_prefix_accepted (pf : ProcBehavior) (i p o : String)
    (hs : pf.startOk = true) (hr : pf.runOk = true) (he : pf.exitCode = 0)
    (host pv : String) (ds r : List Char)
    (hhost : ParseValue pf.output "Host" = some host)
    (hport : ParseValue pf.output "Port" = some pv)
    (hsplit : pv.data = ds ++ r) (hdsne : ds ≠ [])
    (hds : ∀ c ∈ ds, c.isDigit = true)
    (hrh : ∀ c0, r.head? = some c0 → c0.isDigit = false)
    (hlo : 1 ≤ digitsToNat ds) (hhi : digitsToNat ds ≤ 65535) :
    InitSsh pf i p o = ⟨.ok, host, digitsToNat ds⟩ := by
  have hz : atoi pv = (digitsToNat ds : Int) := atoi_digit_prefix pv ds r hsplit hdsne hds hrh
  have h32 : cppIntToUInt32 ((digitsToNat ds : Nat) : Int) = digitsToNat ds :=
    cppIntToUInt32_small _ (by omega)
  have h16 : cppIntToUInt16 ((digitsToNat ds : Nat) : Int) = digitsToNat ds :=
    cppIntToUInt16_small _ (by omega)
  unfold InitSsh
  rw [if_neg (by simp [hs]), if_neg (by simp [hr]), if_neg (by simp [he]), hhost]
  dsimp only
  rw [hport]
  have hnc : ¬((some pv).isSome = false ∨ atoi ((some pv).getD "") = 0 ∨
      atoi ((some pv).getD "") ≤ 0 ∨
      cppIntToUInt32 (atoi ((some pv).getD "")) > UINT_MAX) := by
    simp only [Option.isSome_some, Option.getD_some, hz, h32]
    push_neg
    exact ⟨by decide, by omega, by omega, by unfold UINT_MAX; omega⟩
  rw [if_neg hnc]
  simp [Option.getD_some, hz, h16]

/-- C10 witness: `Port: 123abc` resolves successfully with port 123. -/
theorem InitSsh_port_digit_prefix_accepted_witness :
    InitSsh ⟨true, true, 0, "Host: 1.2.3.4\nPort: 123abc\n"⟩ "i" "p" "o"
      = ⟨.ok, "1.2.3.4", digitsToNat ['1', '2', '3']⟩ :=
  InitSsh_port_digit_prefix_accepted ⟨true, true, 0, "Host: 1.2.3.4\nPort: 123abc\n"⟩
    "i" "p" "o" rfl rfl rfl "1.2.3.4" "123abc" ['1', '2', '3'] ['a', 'b', 'c']
    (by decide) (by decide) (by decide) (by decide) (by decide)
    (by intro c0 h; cases h; decide) (by decide) (by decide)

/-- C1 divergence: an extracted `Port` of 65536 — outside the valid
1–65535 range — is not rejected by `InitSsh`.  The guard
`int_port > UINT_MAX` compares an `int` converted to `unsigned int`
against `UINT_MAX` and is therefore always false, and the
`static_cast<uint16_t>` then truncates 65536 to 0: resolution succeeds
and silently reports port 0. -/
theorem InitSsh_truncates_port_65536 :
    InitSsh ⟨true, true, 0, "Host: 1.2.3.4\nPort: 65536\n"⟩ "edge/e-1/abc123" "p1" "o1"
      = ⟨.ok, "1.2.3.4", 0⟩ := by decide

/-- Unfolded form of `StartSession` with the `let` bindings substituted,
used to drive case analysis in the routing proofs. -/
lemma StartSession_eq (gn wd : String) (pf : ProcBehavior) (sm : SessionManagerBehavior) :
    StartSession gn wd pf sm =
      (if (ParseInstanceName gn "" "" "").ok = false then
        routeAndFinish (.invalidArgument ("Failed to parse instance name " ++ gn)) none "" []
      else if (InitSsh pf (ParseInstanceName gn "" "" "").instance_id
          (ParseInstanceName gn "" "" "").project_id
          (ParseInstanceName gn "" "" "").organization_id).status = .ok then
        routeAndFinish sm.status sm.ms (ParseInstanceName gn "" "" "").instance_id
          [.initSshCall, .sessionManagerStart]
      else
        routeAndFinish (InitSsh pf (ParseInstanceName gn "" "" "").instance_id
            (ParseInstanceName gn "" "" "").project_id
            (ParseInstanceName gn "" "" "").organization_id).status none
          (ParseInstanceName gn "" "" "").instance_id [.initSshCall]) := rfl

/-- The routing tail appends exactly one record action, one stamp action
and one return action to the accumulated trace. -/
lemma routeAndFinish_counts (status : AbslStatus) (ms : Option MultiSession)
    (iid : String) (tr : List TraceAction) :
    ((routeAndFinish status ms iid tr).2).countP isRecordAction
        = tr.countP isRecordAction + 1 ∧
    ((routeAndFinish status ms iid tr).2).countP isStampAction
        = tr.countP isStampAction + 1 ∧
    ((routeAndFinish status ms iid tr).2).countP isReturnAction
        = tr.countP isReturnAction + 1 := by
  unfold routeAndFinish
  cases ms with
  | none =>
    simp [List.countP_append, List.countP_cons, isRecordAction, isStampAction,
      isReturnAction]
  | some m =>
    dsimp only
    split_ifs <;>
      simp [List.countP_append, List.countP_cons, isRecordAction, isStampAction,
        isReturnAction]

/-- The routing tail never adds a registry-call action. -/
lemma routeAndFinish_mem_smStart (status : AbslStatus) (ms : Option MultiSession)
    (iid : String) (tr : List TraceAction) :
    TraceAction.sessionManagerStart ∈ (routeAndFinish status ms iid tr).2 ↔
      TraceAction.sessionManagerStart ∈ tr := by
  unfold routeAndFinish
  cases ms with
  | none => simp
  | some m =>
    dsimp only
    split_ifs <;> simp

/-- The routing tail never adds a resolver-invocation action. -/
lemma routeAndFinish_mem_initSsh (status : AbslStatus) (ms : Option MultiSession)
    (iid : String) (tr : List TraceAction) :
    TraceAction.initSshCall ∈ (routeAndFinish status ms iid tr).2 ↔
      TraceAction.initSshCall ∈ tr := by
  unfold routeAndFinish
  cases ms with
  | none => simp
  | some m =>
    dsimp only
    split_ifs <;> simp

/-- With no handle, the routing tail records to the global sink. -/
lemma routeAndFinish_mem_global (status : AbslStatus) (iid : String)
    (tr : List TraceAction) :
    TraceAction.recordEvent ∈ (routeAndFinish status none iid tr).2 := by
  unfold routeAndFinish; simp

/-- With a handle tracking the (non-empty) instance id, the routing tail
records to the per-instance sink. -/
lemma routeAndFinish_mem_session (status : AbslStatus) (m : MultiSession)
    (iid : String) (tr : List TraceAction)
    (h1 : iid ≠ "") (h2 : m.hasSession iid = true) :
    TraceAction.recordSessionEvent iid ∈ (routeAndFinish status (some m) iid tr).2 := by
  unfold routeAndFinish; simp [h1, h2]

/-- With a handle not satisfying the per-instance condition, the routing
tail records to the aggregate sink. -/
lemma routeAndFinish_mem_multi (status : AbslStatus) (m : MultiSession)
    (iid : String) (tr : List TraceAction)
    (h : ¬(iid ≠ "" ∧ m.hasSession iid = true)) :
    TraceAction.recordMultiSessionEvent ∈ (routeAndFinish status (some m) iid tr).2 := by
  unfold routeAndFinish
  dsimp only
  rw [if_neg h]
  simp

/-- C2: every `StartSession` request records its telemetry event into
exactly one sink, and the sink is the one the three-way branch picks:
per-instance when the registry was reached and the returned handle tracks
the parsed instance id, the handle's aggregate sink when it does not, and
the global sink when the registry was not reached or returned no handle —
on every path (parse failure, resolver failure, registry failure,
success). -/
theorem StartSession_one_sink (gn wd : String) (pf : ProcBehavior)
    (sm : SessionManagerBehavior) :
    ((StartSession gn wd pf sm).2.countP isRecordAction = 1)
    ∧ (∀ m, TraceAction.sessionManagerStart ∈ (StartSession gn wd pf sm).2 →
        sm.ms = some m →
        (m.hasSession (ParseInstanceName gn "" "" "").instance_id = true →
          TraceAction.recordSessionEvent (ParseInstanceName gn "" "" "").instance_id
            ∈ (StartSession gn wd pf sm).2)
        ∧ (m.hasSession (ParseInstanceName gn "" "" "").instance_id = false →
          TraceAction.recordMultiSessionEvent ∈ (StartSession gn wd pf sm).2))
    ∧ ((TraceAction.sessionManagerStart ∉ (StartSession gn wd pf sm).2 ∨ sm.ms = none) →
        TraceAction.recordEvent ∈ (StartSession gn wd pf sm).2) := by
  rw [StartSession_eq]
  by_cases hok : (ParseInstanceName gn "" "" "").ok = false
  · rw [if_pos hok]
    refine ⟨?_, ?_, ?_⟩
    · rw [(routeAndFinish_counts _ _ _ _).1]; rfl
    · intro m hmem _
      exact absurd ((routeAndFinish_mem_smStart _ _ _ _).1 hmem) (by simp)
    · intro _
      exact routeAndFinish_mem_global _ _ _
  · have hok' : (ParseInstanceName gn "" "" "").ok = true := by
      simpa using hok
    rw [if_neg hok]
    by_cases hst : (InitSsh pf (ParseInstanceName gn "" "" "").instance_id
        (ParseInstanceName gn "" "" "").project_id
        (ParseInstanceName gn "" "" "").organization_id).status = .ok
    · rw [if_pos hst]
      refine ⟨?_, ?_, ?_⟩
      · rw [(routeAndFinish_counts _ _ _ _).1]; rfl
      · intro m _ hms
        rw [hms]
        constructor
        · intro htrack
          exact routeAndFinish_mem_session _ _ _ _
            (ParseInstanceName_ok_ne_empty gn "" "" "" hok') htrack
        · intro htrack
          exact routeAndFinish_mem_multi _ _ _ _ (by simp [htrack])
      · intro h
        rcases h with h | h
        · exact absurd ((routeAndFinish_mem_smStart _ _ _ _).2 (by simp)) h
        · rw [h]
          exact routeAndFinish_mem_global _ _ _
    · rw [if_neg hst]
      refine ⟨?_, ?_, ?_⟩
      · rw [(routeAndFinish_counts _ _ _ _).1]; rfl
      · intro m hmem _
        exact absurd ((routeAndFinish_mem_smStart _ _ _ _).1 hmem) (by simp)
      · intro _
        exact routeAndFinish_mem_global _ _ _

/-- C2 witness: with a registry handle tracking the parsed instance id,
exactly one record action occurs and it is the per-instance one. -/
theorem StartSession_one_sink_witness :
    (StartSession "organizations/o1/projects/p1/pools/pool1/gamelets/edge/e-1/abc123"
        "C:\\dir" ⟨true, true, 0, "Host: 1.2.3.4\nPort: 2222\n"⟩
        ⟨.ok, some ⟨fun s => s == "edge/e-1/abc123", 2⟩, 0⟩).2.countP isRecordAction = 1
    ∧ TraceAction.recordSessionEvent
        (ParseInstanceName "organizations/o1/projects/p1/pools/pool1/gamelets/edge/e-1/abc123"
          "" "" "").instance_id
        ∈ (StartSession "organizations/o1/projects/p1/pools/pool1/gamelets/edge/e-1/abc123"
            "C:\\dir" ⟨true, true, 0, "Host: 1.2.3.4\nPort: 2222\n"⟩
            ⟨.ok, some ⟨fun s => s == "edge/e-1/abc123", 2⟩, 0⟩).2 := by
  have h := StartSession_one_sink
    "organizations/o1/projects/p1/pools/pool1/gamelets/edge/e-1/abc123"
    "C:\\dir" ⟨true, true, 0, "Host: 1.2.3.4\nPort: 2222\n"⟩
    ⟨.ok, some ⟨fun s => s == "edge/e-1/abc123", 2⟩, 0⟩
  exact ⟨h.1, (h.2.1 ⟨fun s => s == "edge/e-1/abc123", 2⟩ (by decide) rfl).1 (by decide)⟩

/-- C3: the request pipeline short-circuits — a parse failure prevents
both the resolver run and the registry call, and a resolver failure
prevents the registry call — while status stamping, telemetry dispatch and
the response each happen exactly once on every path. -/
theorem StartSession_short_circuit (gn wd : String) (pf : ProcBehavior)
    (sm : SessionManagerBehavior) :
    ((ParseInstanceName gn "" "" "").ok = false →
        TraceAction.initSshCall ∉ (StartSession gn wd pf sm).2 ∧
        TraceAction.sessionManagerStart ∉ (StartSession gn wd pf sm).2)
    ∧ ((ParseInstanceName gn "" "" "").ok = true →
        (InitSsh pf (ParseInstanceName gn "" "" "").instance_id
            (ParseInstanceName gn "" "" "").project_id
            (ParseInstanceName gn "" "" "").organization_id).status ≠ .ok →
        TraceAction.sessionManagerStart ∉ (StartSession gn wd pf sm).2)
    ∧ (StartSession gn wd pf sm).2.countP isStampAction = 1
    ∧ (StartSession gn wd pf sm).2.countP isRecordAction = 1
    ∧ (StartSession gn wd pf sm).2.countP isReturnAction = 1 := by
  rw [StartSession_eq]
  by_cases hok : (ParseInstanceName gn "" "" "").ok = false
  · rw [if_pos hok]
    refine ⟨fun _ => ⟨?_, ?_⟩, fun hok' _ => ?_, ?_, ?_, ?_⟩
    · intro hmem
      exact absurd ((routeAndFinish_mem_initSsh _ _ _ _).1 hmem) (by simp)
    · intro hmem
      exact absurd ((routeAndFinish_mem_smStart _ _ _ _).1 hmem) (by simp)
    · exact absurd hok' (by simp [hok])
    · rw [(routeAndFinish_counts _ _ _ _).2.1]; rfl
    · rw [(routeAndFinish_counts _ _ _ _).1]; rfl
    · rw [(routeAndFinish_counts _ _ _ _).2.2]; rfl
  · rw [if_neg hok]
    by_cases hst : (InitSsh pf (ParseInstanceName gn "" "" "").instance_id
        (ParseInstanceName gn "" "" "").project_id
        (ParseInstanceName gn "" "" "").organization_id).status = .ok
    · rw [if_pos hst]
      refine ⟨fun hfalse => ?_, fun _ hne => ?_, ?_, ?_, ?_⟩
      · exact absurd hfalse hok
      · exact absurd hst hne
      · rw [(routeAndFinish_counts _ _ _ _).2.1]; rfl
      · rw [(routeAndFinish_counts _ _ _ _).1]; rfl
      · rw [(routeAndFinish_counts _ _ _ _).2.2]; rfl
    · rw [if_neg hst]
      refine ⟨fun hfalse => ?_, fun _ _ => ?_, ?_, ?_, ?_⟩
      · exact absurd hfalse hok
      · intro hmem
        exact absurd ((routeAndFinish_mem_smStart _ _ _ _).1 hmem) (by simp)
      · rw [(routeAndFinish_counts _ _ _ _).2.1]; rfl
      · rw [(routeAndFinish_counts _ _ _ _).1]; rfl
      · rw [(routeAndFinish_counts _ _ _ _).2.2]; rfl

/-- C3 witness: the malformed 9-segment name from the spec triggers no
resolver run and no registry call, and stamping, recording and responding
each occur once. -/
theorem StartSession_short_circuit_witness :
    TraceAction.initSshCall ∉
      (StartSession "organizations/o1/projects/p1/pools/pool1/gamelets/edge/e-1"
        "C:\\dir" ⟨true, true, 0, ""⟩ ⟨.ok, none, 0⟩).2
    ∧ TraceAction.sessionManagerStart ∉
      (StartSession "organizations/o1/projects/p1/pools/pool1/gamelets/edge/e-1"
        "C:\\dir" ⟨true, true, 0, ""⟩ ⟨.ok, none, 0⟩).2
    ∧ (StartSession "organizations/o1/projects/p1/pools/pool1/gamelets/edge/e-1"
        "C:\\dir" ⟨true, true, 0, ""⟩ ⟨.ok, none, 0⟩).2.countP isStampAction = 1 := by
  have h := StartSession_short_circuit
    "organizations/o1/projects/p1/pools/pool1/gamelets/edge/e-1"
    "C:\\dir" ⟨true, true, 0, ""⟩ ⟨.ok, none, 0⟩
  exact ⟨(h.1 (by decide)).1, (h.1 (by decide)).2, h.2.2.1⟩

end CdcFt
